import Mathlib

set_option maxRecDepth 8000

/-!
Shallow embedding of the streaming-dashboard core of `src/app.py`:
the synthetic row generator (`generate_live_rows`), the session rolling
buffer (`st.session_state.live_buffer`), the metric/sensor filter stage,
and the view derivations (trend plot, quick stats, raw-data table, CSV
download) together with the CSV ingestor (`parse_uploaded_csv`).

Modelling conventions:
* timestamps are epoch seconds (`Int`); `datetime.now()` and the
  `timedelta` arithmetic of the source act on this value directly;
* a pandas `DataFrame` is a record of column-presence flags plus a list
  of rows; an entry of a present column may still be missing (`none`
  models `NaN`/`NaT`), and an absent column means every row carries
  `none` there;
* measurement values are exact rationals (`ℚ`), mirroring the numeric
  column without floating-point rounding;
* the process-wide `random` source is an explicit stream of raw draws
  (`Nat → Nat`); the loop body of `generate_live_rows` reads three draws
  per row in call order.
-/

namespace Dashboard

/- Epoch time in seconds is represented directly by `Int`: `datetime`
values of the source are points on this line and `timedelta(seconds=k)`
is subtraction of `k`. -/

/-- One row of the tabular data: the four columns the dashboard uses.
`none` in an optional field models a pandas missing entry (`NaT`/`NaN`). -/
structure Row where
  timestamp : Option Int
  sensor_id : Option String
  metric_type : Option String
  value : ℚ
  deriving DecidableEq

/-- A pandas `DataFrame` carrying the dashboard's row set: which of the
three non-value columns exist, plus the ordered rows.  (The `value`
column is always present on the paths the dashboard exercises.) -/
structure DF where
  hasTimestamp : Bool
  hasSensor : Bool
  hasMetric : Bool
  rows : List Row
  deriving DecidableEq

/-- Well-formedness tying the column flags to the rows, as in pandas: a
column that is absent from the frame has no entry in any row. -/
def DF.WF (df : DF) : Prop :=
  (df.hasTimestamp = false → ∀ r ∈ df.rows, r.timestamp = none) ∧
  (df.hasSensor = false → ∀ r ∈ df.rows, r.sensor_id = none) ∧
  (df.hasMetric = false → ∀ r ∈ df.rows, r.metric_type = none)

instance (df : DF) : Decidable df.WF := by
  unfold DF.WF; infer_instance

/-- `data_df = pd.DataFrame()` (src/app.py line 89): the empty frame with
no columns. -/
def emptyDF : DF := ⟨false, false, false, []⟩

/-- A stream of raw pseudo-random draws, modelling the process-wide
`random` source; call `j` of a batch reads entry `j`. -/
abbrev Rng := Nat → Nat

/-- Models `random.randint(1, 4)`: maps a raw draw into `{1, 2, 3, 4}`. -/
def randint1to4 (r : Nat) : Nat := 1 + r % 4

/-- Models `random.choice(["temperature", "humidity"])`. -/
def choiceMetric (r : Nat) : String :=
  if r % 2 = 0 then "temperature" else "humidity"

/-- Models `random.uniform(-5, 5)`: maps a raw draw into `[-5, 5]`. -/
def uniformPm5 (r : Nat) : ℚ := (r % 10001 : ℚ) / 1000 - 5

/-- Models Python `round(x, 2)`: round to two decimal places, ties to the
even hundredth. -/
def pyRound2 (x : ℚ) : ℚ :=
  let y : ℚ := x * 100
  let n : Int := y.floor
  let k : Int :=
    if y - (n : ℚ) < 1/2 then n
    else if (1 : ℚ)/2 < y - (n : ℚ) then n + 1
    else if 2 ∣ n then n else n + 1
  (k : ℚ) / 100

/-- Loop body of `generate_live_rows` (src/app.py lines 40-47): row `i`
of a batch of `n` gets timestamp `start_time - (n - i) * 2` seconds, a
random sensor id, a random metric type and a noisy drifting value. -/
def genRow (rng : Rng) (n : Nat) (start : Int) (i : Nat) : Row :=
  { timestamp := some (start - ((n : Int) - (i : Int)) * 2)
    sensor_id := some ("sensor_" ++ toString (randint1to4 (rng (3 * i))))
    metric_type := some (choiceMetric (rng (3 * i + 1)))
    value := pyRound2 (100 + uniformPm5 (rng (3 * i + 2)) + (i : ℚ) * (1/10)) }

/-- `generate_live_rows(n, start_time)` (src/app.py lines 35-48): a frame
of exactly `n` synthetic rows with all four columns present. -/
def generate_live_rows (n : Nat) (start : Int) (rng : Rng) : DF :=
  ⟨true, true, true, (List.range n).map (genRow rng n start)⟩

/-- pandas `DataFrame.tail(k)`: the suffix of the last `min(k, length)`
rows. -/
def pdTail (k : Nat) (l : List Row) : List Row := l.drop (l.length - k)

/-- Lazy initialisation of the live buffer (src/app.py line 110): a
backfill of 60 generated rows ending near the current time. -/
def initBuffer (now : Int) (rng : Rng) : DF := generate_live_rows 60 now rng

/-- One auto-refresh tick (src/app.py lines 113-115): append 5 freshly
generated rows ending at `now`, then keep only the last 500 rows. -/
def tick (buf : DF) (now : Int) (rng : Rng) : DF :=
  { buf with rows := pdTail 500 (buf.rows ++ (generate_live_rows 5 now rng).rows) }

/-- `k` successive ticks, each with its own current time and fresh random
draws. -/
def iterTicks (nows : Nat → Int) (rngs : Nat → Rng) : Nat → DF → DF
  | 0, buf => buf
  | k + 1, buf => tick (iterTicks nows rngs k buf) (nows k) (rngs k)

/-- Membership test behind `data_df["metric_type"].isin(metric_filter)`
(src/app.py line 121); a missing (`NaN`) entry is never a member. -/
def rowMetricOk (metricFilter : List String) (r : Row) : Bool :=
  match r.metric_type with
  | some m => metricFilter.contains m
  | none => false

/-- Membership test behind `data_df["sensor_id"].isin(sensor_filter)`
(src/app.py line 124); a missing (`NaN`) entry is never a member. -/
def rowSensorOk (sensorFilter : List String) (r : Row) : Bool :=
  match r.sensor_id with
  | some s => sensorFilter.contains s
  | none => false

/-- Metric half of the filter stage (src/app.py lines 120-121): applied
only when the column exists and the selection is non-empty. -/
def metricStep (metricFilter : List String) (df : DF) : DF :=
  if df.hasMetric && !metricFilter.isEmpty then
    { df with rows := df.rows.filter (rowMetricOk metricFilter) }
  else df

/-- Sensor half of the filter stage (src/app.py lines 122-124): applied
only when the selection is non-empty and the column exists. -/
def sensorStep (sensorFilter : List String) (df : DF) : DF :=
  if !sensorFilter.isEmpty && df.hasSensor then
    { df with rows := df.rows.filter (rowSensorOk sensorFilter) }
  else df

/-- The whole filter stage (src/app.py lines 119-124): both halves, run
only on a non-empty frame. -/
def filterStage (metricFilter sensorFilter : List String) (df : DF) : DF :=
  if df.rows.isEmpty then df
  else sensorStep sensorFilter (metricStep metricFilter df)

/-- Retention predicate exactly as the specification words it (used to
compare the spec against `filterStage`, never to define it): retained iff
the metric set is empty or the row's metric is a member, and likewise for
sensors; a missing field is not a member. -/
def specRetains (metricFilter sensorFilter : List String) (r : Row) : Bool :=
  (metricFilter.isEmpty || rowMetricOk metricFilter r) &&
  (sensorFilter.isEmpty || rowSensorOk sensorFilter r)

/-- Boolean "sorts no later than" for ascending `sort_values("timestamp")`;
missing timestamps (`NaT`) sort last. -/
def tsLeAsc (a b : Option Int) : Bool :=
  match a, b with
  | some x, some y => decide (x ≤ y)
  | some _, none => true
  | none, some _ => false
  | none, none => true

/-- Boolean "sorts no later than" for descending
`sort_values("timestamp", ascending=False)`; missing timestamps sort last. -/
def tsLeDesc (a b : Option Int) : Bool :=
  match a, b with
  | some x, some y => decide (y ≤ x)
  | some _, none => true
  | none, some _ => false
  | none, none => true

/-- Rows sorted by ascending timestamp. -/
def sortByTsAsc (l : List Row) : List Row :=
  l.mergeSort (fun r s => tsLeAsc r.timestamp s.timestamp)

/-- Rows sorted by descending timestamp (latest first). -/
def sortByTsDesc (l : List Row) : List Row :=
  l.mergeSort (fun r s => tsLeDesc r.timestamp s.timestamp)

/-- `format_df_for_plot` (src/app.py lines 65-69): a copy, sorted by
timestamp when that column exists. -/
def format_df_for_plot (df : DF) : DF :=
  if df.hasTimestamp then { df with rows := sortByTsAsc df.rows } else df

/-- Horizontal axis chosen for the trend plot (src/app.py lines 148-163):
the timestamp column when present, else the positional index. -/
inductive XAxis
  | timestamp
  | positionalIndex
  deriving DecidableEq

/-- What the Trend panel shows: the "No data available." message, or a
line chart over plot-ready rows. -/
inductive TrendView
  | noData
  | chart (x : XAxis) (rows : List Row)
  deriving DecidableEq

/-- The Trend panel (src/app.py lines 131-167): an empty frame shows the
info message; otherwise the frame is sorted for plotting, missing metric
types are filled with "unknown" (a whole missing column becomes a
constant "unknown" column), and the x-axis falls back to the positional
index when there is no timestamp column. -/
def trendView (df : DF) : TrendView :=
  if df.rows.isEmpty then .noData
  else
    let dfp := format_df_for_plot df
    let rows := dfp.rows.map
      (fun r => { r with metric_type := some (r.metric_type.getD "unknown") })
    .chart (if df.hasTimestamp then .timestamp else .positionalIndex) rows

/-- What the Quick stats expander shows: the "-" placeholder, or the
three scalar statistics. -/
inductive StatsView
  | placeholder
  | stats (avg mn mx : ℚ)
  deriving DecidableEq

/-- pandas `Series.mean` of the value column. -/
def valuesMean (l : List ℚ) : ℚ := l.sum / l.length

/-- pandas `Series.min` of a non-empty value column. -/
def valuesMin : List ℚ → ℚ
  | [] => 0
  | x :: xs => xs.foldl min x

/-- pandas `Series.max` of a non-empty value column. -/
def valuesMax : List ℚ → ℚ
  | [] => 0
  | x :: xs => xs.foldl max x

/-- The Quick stats expander (src/app.py lines 170-179): the placeholder
on an empty frame, otherwise mean, min and max of the value column. -/
def quickStats (df : DF) : StatsView :=
  if df.rows.isEmpty then .placeholder
  else
    .stats (valuesMean (df.rows.map Row.value))
      (valuesMin (df.rows.map Row.value))
      (valuesMax (df.rows.map Row.value))

/-- Little-endian base-10 digits of `n`, with explicit fuel so the
recursion is structural. -/
def digitsLE : Nat → Nat → List Nat
  | 0, _ => []
  | fuel + 1, n => if n = 0 then [] else n % 10 :: digitsLE fuel (n / 10)

/-- Decimal digit characters of a positive natural number, most
significant first. -/
def natDecChars (n : Nat) : List Char :=
  ((digitsLE n n).map (fun d => Char.ofNat (48 + d))).reverse

/-- Decimal rendering of a natural number. -/
def natDec (n : Nat) : String :=
  if n = 0 then "0" else String.mk (natDecChars n)

/-- Models the second-precision calendar string of a timestamp — both
`strftime("%Y-%m-%d %H:%M:%S")` (src/app.py line 200) and `astype(str)`
(line 207) — as an injective rendering of the epoch second.  The
Gregorian field layout itself is external library behaviour; what the
claims rely on is that the rendering is injective at one-second
precision and is inverted by `pd.to_datetime`. -/
def tsRenderSecond (t : Int) : String :=
  if t < 0 then "-" ++ natDec t.natAbs else natDec t.toNat

/-- One row of the rendered raw-data table: the timestamp column has been
turned into strings, `none` modelling a missing cell (`NaN`). -/
structure RenderedRow where
  timestamp : Option String
  sensor_id : Option String
  metric_type : Option String
  value : ℚ
  deriving DecidableEq

/-- The rendered raw-data table. -/
structure RenderedTable where
  hasTimestamp : Bool
  hasSensor : Bool
  hasMetric : Bool
  rows : List RenderedRow
  deriving DecidableEq

/-- Rendering of one row for the table: `Series.dt.strftime` maps a
timestamp to its fixed-format string and `NaT` to a missing cell. -/
def renderRow (r : Row) : RenderedRow :=
  ⟨r.timestamp.map tsRenderSecond, r.sensor_id, r.metric_type, r.value⟩

/-- The raw-data table for a non-empty frame (src/app.py lines 197-201):
latest-first when a timestamp column exists (original order otherwise),
then the timestamp column is replaced by its `strftime` strings. -/
def renderTable (df : DF) : RenderedTable :=
  if df.hasTimestamp then
    ⟨df.hasTimestamp, df.hasSensor, df.hasMetric,
      (sortByTsDesc df.rows).map renderRow⟩
  else
    ⟨df.hasTimestamp, df.hasSensor, df.hasMetric,
      df.rows.map (fun r => ⟨none, r.sensor_id, r.metric_type, r.value⟩)⟩

/-- The `show_table` branch guard (src/app.py line 196): the table is
rendered only when requested and the frame is non-empty. -/
def tableView (show_table : Bool) (df : DF) : Option RenderedTable :=
  if show_table && !df.rows.isEmpty then some (renderTable df) else none

/-- One cell of the serialized CSV payload.  `num` is a cell whose text
is the exact decimal of a numeric entry (pandas float serialization
round-trips exactly, so the digits are kept abstract); `str` is a text
cell; `blank` is the empty cell pandas writes for a missing entry. -/
inductive Cell
  | num (q : ℚ)
  | str (s : String)
  | blank
  deriving DecidableEq

/-- One serialized row of the CSV payload. -/
structure CsvRow where
  timestamp : Cell
  sensor_id : Cell
  metric_type : Cell
  value : Cell
  deriving DecidableEq

/-- The `to_csv` byte payload at cell granularity: the header row records
which columns exist, then one serialized row per data row. -/
structure CsvPayload where
  hasTimestamp : Bool
  hasSensor : Bool
  hasMetric : Bool
  rows : List CsvRow
  deriving DecidableEq

/-- pandas `astype(str)` on one datetime entry (src/app.py line 207):
`NaT` prints as the literal "NaT", anything else as its calendar
string. -/
def tsAstypeStr (t : Option Int) : String :=
  match t with
  | none => "NaT"
  | some t => tsRenderSecond t

/-- Serialization of one optional text entry by `to_csv`: a missing
entry is written as the empty field, and the empty string is written as
that very same empty field (QUOTE_MINIMAL adds no quotes around it), so
both collapse to the `blank` cell in the byte payload. -/
def strCell (s : Option String) : Cell :=
  match s with
  | none => .blank
  | some s => if s = "" then .blank else .str s

/-- The download branch payload (src/app.py lines 204-208): copy the
frame, stringify the timestamp column when present, serialize with
`to_csv`. -/
def downloadPayload (df : DF) : CsvPayload :=
  ⟨df.hasTimestamp, df.hasSensor, df.hasMetric,
    df.rows.map (fun r =>
      ⟨if df.hasTimestamp then .str (tsAstypeStr r.timestamp) else .blank,
       strCell r.sensor_id, strCell r.metric_type, .num r.value⟩)⟩

/-- The download branch guard (src/app.py line 204): nothing is offered
when the frame is empty. -/
def exportView (download_btn : Bool) (df : DF) : Option CsvPayload :=
  if download_btn && !df.rows.isEmpty then some (downloadPayload df) else none

/-- Decimal parse of a character list: all characters must be digits and
the list non-empty. -/
def parseNatChars (l : List Char) : Option Nat :=
  if l.isEmpty then none
  else if l.all (fun c => decide (48 ≤ c.toNat) && decide (c.toNat ≤ 57)) then
    some (Nat.ofDigits 10 ((l.map (fun c => c.toNat - 48)).reverse))
  else none

/-- Character-level body of `tsParse`: an optional leading minus sign,
then decimal digits. -/
def tsParseChars : List Char → Option Int
  | [] => none
  | c :: rest =>
    if c = '-' then (parseNatChars rest).map (fun n => -(n : Int))
    else (parseNatChars (c :: rest)).map (fun n => (n : Int))

/-- pandas `to_datetime(·, errors="coerce")` on one string entry
(src/app.py line 57): an entry that does not parse as a time — including
the literal "NaT" — coerces to `NaT` (`none`). -/
def tsParse (s : String) : Option Int := tsParseChars s.data

/-- Default NA tokens of `pd.read_csv`: a field holding one of these
texts — including the empty field — is read back as a missing entry
(NaN). -/
def naTokens : List String :=
  ["", "#N/A", "#N/A N/A", "#NA", "-1.#IND", "-1.#QNAN", "-NaN", "-nan",
   "1.#IND", "1.#QNAN", "<NA>", "N/A", "NA", "NULL", "NaN", "None", "n/a",
   "nan", "null"]

/-- Reading one text cell back (`pd.read_csv`): a blank (empty) field is
a missing entry, and so is any of the default NA tokens; any other text
survives.  A numeric cell never arises in the text columns this
dashboard exports. -/
def cellText (c : Cell) : Option String :=
  match c with
  | .str s => if naTokens.contains s then none else some s
  | .num _ => none
  | .blank => none

/-- Text values that survive the CSV byte round trip unchanged: anything
except the empty string (written as the bare empty field) and the NA
tokens (read back as missing).  A missing entry is trivially safe. -/
def csvSafeText (s : Option String) : Bool :=
  match s with
  | none => true
  | some t => !(naTokens.contains t)

/-- Reading one value cell back (`pd.read_csv`): numeric cells carry the
exact value; the other cell kinds never arise in the exported value
column. -/
def cellValue (c : Cell) : ℚ :=
  match c with
  | .num q => q
  | .str _ => 0
  | .blank => 0

/-- `pd.read_csv` at cell granularity followed by the timestamp coercion
of `parse_uploaded_csv` (src/app.py lines 55-57). -/
def ingestPayload (p : CsvPayload) : DF :=
  ⟨p.hasTimestamp, p.hasSensor, p.hasMetric,
    p.rows.map (fun c =>
      ⟨(if p.hasTimestamp then
          (match c.timestamp with
           | .str s => tsParse s
           | _ => none)
        else none),
       (if p.hasSensor then cellText c.sensor_id else none),
       (if p.hasMetric then cellText c.metric_type else none),
       cellValue c.value⟩)⟩

/-- An uploaded file: either structurally malformed (anything that makes
`pd.read_csv` raise) or a readable table. -/
inductive UploadFile
  | malformed
  | table (p : CsvPayload)

/-- `parse_uploaded_csv` (src/app.py lines 53-60): any exception while
reading yields `None`; otherwise the frame with its timestamp column
coerced. -/
def parse_uploaded_csv (u : UploadFile) : Option DF :=
  match u with
  | .malformed => none
  | .table p => some (ingestPayload p)

/-- What the Upload CSV branch surfaced in the sidebar. -/
inductive UploadOutcome
  | noFile
  | parseFailed
  | ok
  deriving DecidableEq

/-- The "Upload CSV" branch (src/app.py lines 96-105): `data_df` starts
empty and is replaced only on a successful parse; a failed parse leaves
it empty and surfaces the sidebar error. -/
def uploadBranch (uploaded : Option UploadFile) : DF × UploadOutcome :=
  match uploaded with
  | none => (emptyDF, .noFile)
  | some u =>
    match parse_uploaded_csv u with
    | none => (emptyDF, .parseFailed)
    | some df => (df, .ok)

/-- Session state across passes: `live_buffer` is `none` while the key is
absent from `st.session_state`. -/
structure SessionState where
  live_buffer : Option DF
  deriving DecidableEq

/-- All four presentation artifacts of one pass. -/
structure PassViews where
  trend : TrendView
  stats : StatsView
  table : Option RenderedTable
  download : Option CsvPayload
  deriving DecidableEq

/-- One full live-mode pass (src/app.py lines 108-116, then 119-209):
lazy initialisation of the buffer, a tick when auto-refresh is on, then
filtering and every view derivation on a copy of the buffer.  Only the
acquisition step writes to the session state. -/
def livePass (s : SessionState) (auto_refresh : Bool) (now : Int)
    (rngInit rngTick : Rng) (metricFilter sensorFilter : List String)
    (show_table download_btn : Bool) : SessionState × PassViews :=
  let buf0 := match s.live_buffer with
    | some b => b
    | none => initBuffer now rngInit
  let buf1 := if auto_refresh then tick buf0 now rngTick else buf0
  let data_df := filterStage metricFilter sensorFilter buf1
  (⟨some buf1⟩,
   ⟨trendView data_df, quickStats data_df, tableView show_table data_df,
    exportView download_btn data_df⟩)

/-! Concrete inputs used by the witnesses and counterexamples below. -/

/-- A degenerate random stream: every draw is 0. -/
def rngZero : Rng := fun _ => 0

/-- A concrete row with every column present. -/
def row0 : Row := ⟨some 0, some "sensor_1", some "temperature", 0⟩

/-- A concrete full buffer of 500 rows. -/
def buf500 : DF := ⟨true, true, true, List.replicate 500 row0⟩

/-- A frame whose `metric_type` column is absent entirely (as an uploaded
CSV without that column produces). -/
def dfNoMetricCol : DF := ⟨false, true, false, [⟨some 0, some "sensor_1", none, 0⟩]⟩

/-- A frame with a present timestamp column whose single entry is `NaT`. -/
def dfNaTRow : DF := ⟨true, true, true, [⟨none, some "sensor_1", some "temperature", 0⟩]⟩

/-- A two-row frame with values 1 and 3. -/
def dfStats : DF :=
  ⟨true, true, true,
    [⟨some 0, some "sensor_1", some "temperature", 1⟩,
     ⟨some 2, some "sensor_2", some "humidity", 3⟩]⟩

/-- A frame whose single row carries the empty string as its sensor id:
`to_csv` writes that field as the same empty field it writes for a
missing entry, so re-ingesting loses it. -/
def dfEmptyStr : DF :=
  ⟨true, true, true, [⟨some 0, some "", some "temperature", 1⟩]⟩

/-- A three-row frame exercising the CSV round trip: a positive
timestamp, a negative timestamp, and a row full of missing entries. -/
def dfRoundTrip : DF :=
  ⟨true, true, true,
    [⟨some 1234, some "sensor_2", some "humidity", 5/2⟩,
     ⟨some (-7), some "sensor_3", some "temperature", 3⟩,
     ⟨none, none, none, 0⟩]⟩

/-! Helper lemmas about the decimal rendering and its parse. -/

theorem ofDigits_digitsLE : ∀ fuel n, n ≤ fuel → Nat.ofDigits 10 (digitsLE fuel n) = n := by
  intro fuel
  induction fuel with
  | zero => intro n hn; interval_cases n; simp [digitsLE]
  | succ fuel ih =>
    intro n hn
    by_cases h0 : n = 0
    · simp [digitsLE, h0, Nat.ofDigits]
    · have hdiv : n / 10 ≤ fuel := by
        have := Nat.div_lt_self (Nat.pos_of_ne_zero h0) (by omega : 1 < 10)
        omega
      simp only [digitsLE, h0, if_false, Nat.ofDigits_cons, ih _ hdiv]
      omega

theorem digitsLE_lt_ten : ∀ fuel n d, d ∈ digitsLE fuel n → d < 10 := by
  intro fuel
  induction fuel with
  | zero => intro n d hd; simp [digitsLE] at hd
  | succ fuel ih =>
    intro n d hd
    by_cases h0 : n = 0
    · simp [digitsLE, h0] at hd
    · simp only [digitsLE, h0, if_false, List.mem_cons] at hd
      rcases hd with h | h
      · omega
      · exact ih _ _ h

theorem digitsLE_ne_nil (fuel n : Nat) (h0 : n ≠ 0) (hn : n ≤ fuel) :
    digitsLE fuel n ≠ [] := by
  cases fuel with
  | zero => omega
  | succ fuel => simp [digitsLE, h0]

theorem charDigit_toNat (d : Nat) (hd : d < 10) : (Char.ofNat (48 + d)).toNat = 48 + d := by
  interval_cases d <;> decide

theorem parseNatChars_natDecChars (n : Nat) (h0 : n ≠ 0) :
    parseNatChars (natDecChars n) = some n := by
  have hne : natDecChars n ≠ [] := by
    simp only [natDecChars, ne_eq, List.reverse_eq_nil_iff, List.map_eq_nil_iff]
    exact digitsLE_ne_nil n n h0 le_rfl
  have hmem : ∀ c ∈ natDecChars n, ∃ d, d < 10 ∧ c = Char.ofNat (48 + d) := by
    intro c hc
    simp only [natDecChars, List.mem_reverse, List.mem_map] at hc
    obtain ⟨d, hd, rfl⟩ := hc
    exact ⟨d, digitsLE_lt_ten n n d hd, rfl⟩
  have hall : natDecChars n |>.all (fun c => decide (48 ≤ c.toNat) && decide (c.toNat ≤ 57)) := by
    rw [List.all_eq_true]
    intro c hc
    obtain ⟨d, hd, rfl⟩ := hmem c hc
    rw [charDigit_toNat d hd]
    simp; omega
  have hback : ((natDecChars n).map (fun c => c.toNat - 48)).reverse = digitsLE n n := by
    simp only [natDecChars, List.map_reverse, List.reverse_reverse, List.map_map]
    have hpt : ∀ d ∈ digitsLE n n,
        ((fun c => c.toNat - 48) ∘ fun d => Char.ofNat (48 + d)) d = id d := by
      intro d hd
      simp only [Function.comp_apply, id]
      rw [charDigit_toNat d (digitsLE_lt_ten n n d hd)]
      omega
    rw [List.map_congr_left hpt, List.map_id]
  simp only [parseNatChars, List.isEmpty_iff, hne, if_false, hall, if_true, hback]
  rw [ofDigits_digitsLE n n le_rfl]

theorem natDecChars_head_digit (n : Nat) (c : Char) (rest : List Char)
    (h : natDecChars n = c :: rest) : c ≠ '-' := by
  have hc : c ∈ natDecChars n := by rw [h]; exact List.mem_cons_self c rest
  simp only [natDecChars, List.mem_reverse, List.mem_map] at hc
  obtain ⟨d, hd, rfl⟩ := hc
  have hlt := digitsLE_lt_ten n n d hd
  intro hcon
  have : (Char.ofNat (48 + d)).toNat = 45 := by rw [hcon]; rfl
  rw [charDigit_toNat d hlt] at this
  omega

theorem tsParse_tsRenderSecond (t : Int) : tsParse (tsRenderSecond t) = some t := by
  by_cases hneg : t < 0
  · have habs : t.natAbs ≠ 0 := by omega
    have hdata : (tsRenderSecond t).data = '-' :: natDecChars t.natAbs := by
      simp only [tsRenderSecond, if_pos hneg, natDec, habs, if_false]
      rfl
    rw [tsParse, hdata]
    simp only [tsParseChars, if_pos rfl, parseNatChars_natDecChars t.natAbs habs,
      Option.map_some']
    exact congrArg some (show -((t.natAbs : Int)) = t by omega)
  · by_cases h0 : t.toNat = 0
    · have ht : t = 0 := by omega
      subst ht
      decide
    · have hdata : (tsRenderSecond t).data = natDecChars t.toNat := by
        unfold tsRenderSecond natDec
        rw [if_neg hneg, if_neg h0]
      rcases hcons : natDecChars t.toNat with _ | ⟨c, rest⟩
      · exact absurd hcons (by
          simp only [natDecChars, ne_eq, List.reverse_eq_nil_iff, List.map_eq_nil_iff]
          exact digitsLE_ne_nil _ _ h0 le_rfl)
      · rw [tsParse, hdata, hcons]
        have hcne : c ≠ '-' := natDecChars_head_digit _ _ _ hcons
        simp only [tsParseChars, hcne, if_false]
        rw [← hcons, parseNatChars_natDecChars t.toNat h0]
        show some ((t.toNat : Int)) = some t
        exact congrArg some (by omega)

/-! Generator lemmas. -/

theorem generate_live_rows_timestamps (n : Nat) (start : Int) (rng : Rng) :
    (generate_live_rows n start rng).rows.map Row.timestamp
      = (List.range n).map (fun (i : Nat) => some (start - ((n : Int) - (i : Int)) * 2)) := by
  simp only [generate_live_rows, List.map_map]
  rfl

theorem generate_live_rows_length (n : Nat) (start : Int) (rng : Rng) :
    (generate_live_rows n start rng).rows.length = n := by
  simp [generate_live_rows]

/-- C1, as the claim states it, is refuted at `n = 1`, `start_time = 0`:
the single (hence last) generated row has timestamp `-2` = `start_time`
minus 2 seconds, not `start_time` itself. -/
theorem C1_counterexample :
    ((generate_live_rows 1 0 rngZero).rows.map Row.timestamp).getLast? = some (some (-2)) ∧
    ((generate_live_rows 1 0 rngZero).rows.map Row.timestamp).getLast? ≠ some (some 0) := by
  decide

/-- C1 (amended): `generate_live_rows n start` returns exactly `n` rows;
row `i` carries timestamp `start - (n - i) * 2` seconds, so consecutive
timestamps are spaced exactly 2 seconds apart and strictly increase, and
for `n > 0` the LAST row's timestamp is `start - 2` — two seconds before
`start_time`, not `start_time` itself. -/
theorem C1_generator_amended (n : Nat) (start : Int) (rng : Rng) :
    (generate_live_rows n start rng).rows.length = n ∧
    (generate_live_rows n start rng).rows.map Row.timestamp
      = (List.range n).map (fun (i : Nat) => some (start - ((n : Int) - (i : Int)) * 2)) ∧
    ((generate_live_rows n start rng).rows.map Row.timestamp).Chain'
      (fun a b => ∃ x y, a = some x ∧ b = some y ∧ x + 2 = y) ∧
    (0 < n →
      ((generate_live_rows n start rng).rows.map Row.timestamp).getLast?
        = some (some (start - 2))) := by
  refine ⟨generate_live_rows_length n start rng, generate_live_rows_timestamps n start rng,
    ?_, ?_⟩
  · rw [generate_live_rows_timestamps, List.chain'_map]
    cases n with
    | zero => simp
    | succ m =>
      rw [List.chain'_range_succ]
      intro i hi
      refine ⟨start - (((m + 1 : Nat) : Int) - (i : Int)) * 2,
        start - (((m + 1 : Nat) : Int) - ((i + 1 : Nat) : Int)) * 2, rfl, rfl, ?_⟩
      push_cast
      ring
  · intro hn
    rw [generate_live_rows_timestamps]
    cases n with
    | zero => omega
    | succ m =>
      rw [List.range_succ, List.map_append]
      simp only [List.map_cons, List.map_nil, List.getLast?_concat]
      congr 2
      push_cast
      ring

/-- Closed witness for `C1_generator_amended` at `n = 3`, `start = 0`. -/
theorem C1_generator_amended_witness :
    (generate_live_rows 3 0 rngZero).rows.length = 3 ∧
    (generate_live_rows 3 0 rngZero).rows.map Row.timestamp
      = (List.range 3).map (fun (i : Nat) => some (0 - ((3 : Int) - (i : Int)) * 2)) ∧
    ((generate_live_rows 3 0 rngZero).rows.map Row.timestamp).Chain'
      (fun a b => ∃ x y, a = some x ∧ b = some y ∧ x + 2 = y) ∧
    ((generate_live_rows 3 0 rngZero).rows.map Row.timestamp).getLast?
      = some (some (0 - 2)) :=
  ⟨(C1_generator_amended 3 0 rngZero).1, (C1_generator_amended 3 0 rngZero).2.1,
   (C1_generator_amended 3 0 rngZero).2.2.1,
   (C1_generator_amended 3 0 rngZero).2.2.2 (by decide)⟩

/-! Rolling-buffer lemmas. -/

theorem pdTail_length (k : Nat) (l : List Row) :
    (pdTail k l).length = min l.length k := by
  simp only [pdTail, List.length_drop]
  omega

theorem tick_length (buf : DF) (now : Int) (rng : Rng) :
    (tick buf now rng).rows.length = min (buf.rows.length + 5) 500 := by
  show (pdTail 500 (buf.rows ++ (generate_live_rows 5 now rng).rows)).length = _
  rw [pdTail_length, List.length_append, generate_live_rows_length]

/-- C2: starting from the 60-row backfill, `k` ticks leave the buffer at
exactly `min (60 + 5k) 500` rows — never more than 500 — and a tick on a
buffer already holding 500 rows keeps it at exactly 500, dropping the 5
oldest rows and appending the 5 fresh ones. -/
theorem C2_rolling_buffer (nows : Nat → Int) (rngs : Nat → Rng) (now0 : Int)
    (rng0 : Rng) (k : Nat) :
    (iterTicks nows rngs k (initBuffer now0 rng0)).rows.length = min (60 + 5 * k) 500 ∧
    (∀ (buf : DF) (now : Int) (rng : Rng), buf.rows.length = 500 →
      (tick buf now rng).rows.length = 500 ∧
      (tick buf now rng).rows = buf.rows.drop 5 ++ (generate_live_rows 5 now rng).rows) := by
  constructor
  · induction k with
    | zero =>
      show (initBuffer now0 rng0).rows.length = _
      rw [initBuffer, generate_live_rows_length]
      decide
    | succ k ih =>
      rw [iterTicks, tick_length, ih]
      omega
  · intro buf now rng hlen
    have hl : (tick buf now rng).rows.length = 500 := by
      rw [tick_length, hlen]
      decide
    refine ⟨hl, ?_⟩
    show pdTail 500 (buf.rows ++ (generate_live_rows 5 now rng).rows) = _
    rw [pdTail, List.length_append, hlen, generate_live_rows_length]
    rw [List.drop_append_of_le_length (by omega)]

/-- Closed witness for `C2_rolling_buffer`: three ticks from the backfill
give exactly 75 rows, and a tick on the concrete 500-row buffer `buf500`
keeps 500 rows, dropping the 5 oldest. -/
theorem C2_rolling_buffer_witness :
    (iterTicks (fun _ => 0) (fun _ => rngZero) 3 (initBuffer 0 rngZero)).rows.length
      = min (60 + 5 * 3) 500 ∧
    buf500.rows.length = 500 ∧
    (tick buf500 7 rngZero).rows.length = 500 ∧
    (tick buf500 7 rngZero).rows
      = buf500.rows.drop 5 ++ (generate_live_rows 5 7 rngZero).rows :=
  ⟨(C2_rolling_buffer (fun _ => 0) (fun _ => rngZero) 0 rngZero 3).1,
   by simp [buf500],
   ((C2_rolling_buffer (fun _ => 0) (fun _ => rngZero) 0 rngZero 3).2 buf500 7 rngZero
      (by simp [buf500])).1,
   ((C2_rolling_buffer (fun _ => 0) (fun _ => rngZero) 0 rngZero 3).2 buf500 7 rngZero
      (by simp [buf500])).2⟩

/-! Filter-stage lemmas. -/

theorem DF.eq_of_fields (a b : DF) (h1 : a.hasTimestamp = b.hasTimestamp)
    (h2 : a.hasSensor = b.hasSensor) (h3 : a.hasMetric = b.hasMetric)
    (h4 : a.rows = b.rows) : a = b := by
  cases a; cases b; simp_all

theorem metricStep_hasTimestamp (mf : List String) (df : DF) :
    (metricStep mf df).hasTimestamp = df.hasTimestamp := by
  unfold metricStep; split <;> rfl

theorem metricStep_hasSensor (mf : List String) (df : DF) :
    (metricStep mf df).hasSensor = df.hasSensor := by
  unfold metricStep; split <;> rfl

theorem metricStep_hasMetric (mf : List String) (df : DF) :
    (metricStep mf df).hasMetric = df.hasMetric := by
  unfold metricStep; split <;> rfl

theorem sensorStep_hasTimestamp (sf : List String) (df : DF) :
    (sensorStep sf df).hasTimestamp = df.hasTimestamp := by
  unfold sensorStep; split <;> rfl

theorem sensorStep_hasSensor (sf : List String) (df : DF) :
    (sensorStep sf df).hasSensor = df.hasSensor := by
  unfold sensorStep; split <;> rfl

theorem sensorStep_hasMetric (sf : List String) (df : DF) :
    (sensorStep sf df).hasMetric = df.hasMetric := by
  unfold sensorStep; split <;> rfl

theorem metricStep_rows (mf : List String) (df : DF) :
    (metricStep mf df).rows
      = if df.hasMetric && !mf.isEmpty then df.rows.filter (rowMetricOk mf)
        else df.rows := by
  unfold metricStep; split <;> simp_all

theorem sensorStep_rows (sf : List String) (df : DF) :
    (sensorStep sf df).rows
      = if !sf.isEmpty && df.hasSensor then df.rows.filter (rowSensorOk sf)
        else df.rows := by
  unfold sensorStep; split <;> simp_all

theorem filter_self_idem (p : Row → Bool) (l : List Row) :
    (l.filter p).filter p = l.filter p := by
  rw [List.filter_filter]
  exact List.filter_congr (fun a _ => by cases hp : p a <;> simp [hp])

theorem filter_pair_idem (p q : Row → Bool) (l : List Row) :
    (((l.filter q).filter p).filter q).filter p = (l.filter q).filter p := by
  rw [List.filter_filter, List.filter_filter, List.filter_filter, List.filter_filter]
  exact List.filter_congr (fun a _ => by cases hp : p a <;> cases hq : q a <;> simp [hp, hq])

/-- C3, as the claim states it, is refuted by a frame whose `metric_type`
column is absent entirely: with the non-empty metric filter
`["temperature"]` selected, the filter is skipped and the row survives,
although the claimed retention predicate rejects it. -/
theorem C3_counterexample :
    (filterStage ["temperature"] [] dfNoMetricCol).rows = dfNoMetricCol.rows ∧
    dfNoMetricCol.rows ≠ [] ∧
    (∀ r ∈ dfNoMetricCol.rows, specRetains ["temperature"] [] r = false) := by
  decide

/-- C3 (amended): when both the `metric_type` and `sensor_id` columns are
present, a row is retained by the filter stage iff (the metric set is
empty OR its metric is a member) AND (the sensor set is empty OR its
sensor is a member), a missing (`NaN`) entry never counting as a member;
when a column is absent entirely, the corresponding filter is skipped and
rows are retained unconditionally by that predicate. -/
theorem C3_filter_amended (mf sf : List String) (df : DF) (r : Row) :
    (df.hasMetric = true → df.hasSensor = true →
      (r ∈ (filterStage mf sf df).rows ↔ r ∈ df.rows ∧ specRetains mf sf r = true)) ∧
    (df.hasMetric = false → metricStep mf df = df) ∧
    (df.hasSensor = false → sensorStep sf df = df) := by
  refine ⟨?_, ?_, ?_⟩
  · intro hmet hsen
    by_cases hemp : df.rows.isEmpty
    · have hnil : df.rows = [] := List.isEmpty_iff.mp hemp
      rw [filterStage, if_pos hemp, hnil]
      simp
    · rw [filterStage, if_neg hemp, sensorStep_rows, metricStep_hasSensor,
        metricStep_rows, hmet, hsen]
      by_cases hm : mf.isEmpty <;> by_cases hs : sf.isEmpty <;>
        simp [hm, hs, List.mem_filter, specRetains, Bool.and_eq_true, Bool.or_eq_true,
          List.isEmpty_iff] <;> tauto
  · intro hmet
    unfold metricStep
    rw [hmet]
    simp
  · intro hsen
    unfold sensorStep
    rw [hsen]
    simp

/-- Closed witness for `C3_filter_amended`: the retention equivalence at
a concrete two-row frame with both columns present, and the skipped
filters on frames lacking the respective columns. -/
theorem C3_filter_amended_witness :
    ((⟨some 0, some "sensor_1", some "temperature", 1⟩ : Row)
        ∈ (filterStage ["temperature"] [] dfStats).rows ↔
      (⟨some 0, some "sensor_1", some "temperature", 1⟩ : Row) ∈ dfStats.rows ∧
        specRetains ["temperature"] [] ⟨some 0, some "sensor_1", some "temperature", 1⟩
          = true) ∧
    metricStep ["temperature"] dfNoMetricCol = dfNoMetricCol ∧
    sensorStep ["sensor_1"] emptyDF = emptyDF :=
  ⟨(C3_filter_amended ["temperature"] []
      dfStats ⟨some 0, some "sensor_1", some "temperature", 1⟩).1 rfl rfl,
   (C3_filter_amended ["temperature"] ["sensor_1"]
      dfNoMetricCol ⟨some 0, some "sensor_1", some "temperature", 1⟩).2.1 rfl,
   (C3_filter_amended ["temperature"] ["sensor_1"]
      emptyDF ⟨some 0, some "sensor_1", some "temperature", 1⟩).2.2 rfl⟩

/-- C9: the filter stage is idempotent — filtering an already-filtered
frame with the same metric and sensor selections changes nothing. -/
theorem C9_filter_idempotent (mf sf : List String) (df : DF) :
    filterStage mf sf (filterStage mf sf df) = filterStage mf sf df := by
  by_cases hemp : df.rows.isEmpty
  · have hinner : filterStage mf sf df = df := by rw [filterStage, if_pos hemp]
    rw [hinner]
    exact hinner
  · have hinner : filterStage mf sf df = sensorStep sf (metricStep mf df) := by
      rw [filterStage, if_neg hemp]
    rw [hinner]
    by_cases hemp1 : (sensorStep sf (metricStep mf df)).rows.isEmpty
    · rw [filterStage, if_pos hemp1]
    · rw [filterStage, if_neg hemp1]
      refine DF.eq_of_fields _ _ ?_ ?_ ?_ ?_
      · simp only [sensorStep_hasTimestamp, metricStep_hasTimestamp]
      · simp only [sensorStep_hasSensor, metricStep_hasSensor]
      · simp only [sensorStep_hasMetric, metricStep_hasMetric]
      · simp only [sensorStep_rows, metricStep_rows, sensorStep_hasSensor,
          sensorStep_hasMetric, metricStep_hasSensor, metricStep_hasMetric]
        by_cases hgm : (df.hasMetric && !mf.isEmpty) = true <;>
          by_cases hgs : (!sf.isEmpty && df.hasSensor) = true <;>
            simp only [hgm, hgs, if_true, if_false, Bool.not_eq_true, if_neg,
              filter_self_idem, filter_pair_idem]

/-! Display-table lemmas. -/

theorem tsLeDesc_trans (a b c : Option Int) (hab : tsLeDesc a b = true)
    (hbc : tsLeDesc b c = true) : tsLeDesc a c = true := by
  cases a <;> cases b <;> cases c <;> simp_all [tsLeDesc] <;> omega

theorem tsLeDesc_total (a b : Option Int) : (tsLeDesc a b || tsLeDesc b a) = true := by
  cases a <;> cases b <;> simp_all [tsLeDesc] <;> omega

theorem sortByTsDesc_perm (l : List Row) : (sortByTsDesc l).Perm l :=
  List.mergeSort_perm l _

theorem sortByTsDesc_sorted (l : List Row) :
    List.Pairwise (fun a b => tsLeDesc a.timestamp b.timestamp = true) (sortByTsDesc l) :=
  List.sorted_mergeSort
    (fun a b c hab hbc => tsLeDesc_trans a.timestamp b.timestamp c.timestamp hab hbc)
    (fun a b => tsLeDesc_total a.timestamp b.timestamp) l

/-- C4, as the claim states it, is refuted by a frame whose timestamp
column is present but holds `NaT` in its single row: `dt.strftime` turns
that entry into a missing cell (`none`), not the literal string "N/A". -/
theorem C4_counterexample :
    ((renderTable dfNaTRow).rows.map RenderedRow.timestamp) = [none] ∧
    ((renderTable dfNaTRow).rows.map RenderedRow.timestamp) ≠ [some "N/A"] := by
  constructor
  · simp [renderTable, dfNaTRow, sortByTsDesc, renderRow]
  · simp [renderTable, dfNaTRow, sortByTsDesc, renderRow]

/-- C4 (amended): the display table is the row set sorted descending by
timestamp when a timestamp column is present (original order otherwise),
timestamps rendered as their fixed-format strings; a row with an absent
(`NaT`) timestamp renders as a missing cell — not a formatting fault, but
not the literal "N/A" either — and a frame with no timestamp column
yields a table with no timestamp column at all. -/
theorem C4_display_amended (df : DF) :
    (df.hasTimestamp = true →
      (renderTable df).rows = (sortByTsDesc df.rows).map renderRow ∧
      (sortByTsDesc df.rows).Perm df.rows ∧
      List.Pairwise (fun a b => tsLeDesc a.timestamp b.timestamp = true)
        (sortByTsDesc df.rows)) ∧
    (df.hasTimestamp = false →
      (renderTable df).hasTimestamp = false ∧
      (renderTable df).rows
        = df.rows.map (fun r => ⟨none, r.sensor_id, r.metric_type, r.value⟩)) ∧
    (∀ r : Row, (renderRow r).timestamp = r.timestamp.map tsRenderSecond ∧
      (r.timestamp = none → (renderRow r).timestamp = none)) := by
  refine ⟨?_, ?_, ?_⟩
  · intro ht
    refine ⟨?_, sortByTsDesc_perm df.rows, sortByTsDesc_sorted df.rows⟩
    rw [renderTable, if_pos ht]
  · intro ht
    rw [renderTable, if_neg (by rw [ht]; simp)]
    exact ⟨ht, rfl⟩
  · intro r
    exact ⟨rfl, fun h => by rw [renderRow, h]; rfl⟩

/-- Closed witness for `C4_display_amended` at the concrete frames
`dfStats` (timestamp column present) and `emptyDF` (no timestamp
column), and the concrete row `row0`. -/
theorem C4_display_amended_witness :
    ((renderTable dfStats).rows = (sortByTsDesc dfStats.rows).map renderRow ∧
      (sortByTsDesc dfStats.rows).Perm dfStats.rows ∧
      List.Pairwise (fun a b => tsLeDesc a.timestamp b.timestamp = true)
        (sortByTsDesc dfStats.rows)) ∧
    ((renderTable emptyDF).hasTimestamp = false ∧
      (renderTable emptyDF).rows
        = emptyDF.rows.map (fun r => ⟨none, r.sensor_id, r.metric_type, r.value⟩)) ∧
    ((renderRow row0).timestamp = row0.timestamp.map tsRenderSecond ∧
      (row0.timestamp = none → (renderRow row0).timestamp = none)) :=
  ⟨(C4_display_amended dfStats).1 rfl, (C4_display_amended emptyDF).2.1 rfl,
   (C4_display_amended dfStats).2.2 row0⟩

/-! Stats lemmas. -/

theorem foldl_min_bounds (l : List ℚ) :
    ∀ a : ℚ, l.foldl min a ≤ a ∧ ∀ x ∈ l, l.foldl min a ≤ x := by
  induction l with
  | nil => intro a; exact ⟨le_refl a, by simp⟩
  | cons y ys ih =>
    intro a
    have h1 : (y :: ys).foldl min a = ys.foldl min (min a y) := rfl
    constructor
    · rw [h1]
      exact le_trans (ih (min a y)).1 (min_le_left a y)
    · intro x hx
      rcases List.mem_cons.mp hx with rfl | hx
      · rw [h1]
        exact le_trans (ih (min a x)).1 (min_le_right a x)
      · rw [h1]
        exact (ih (min a y)).2 x hx

theorem foldl_max_bounds (l : List ℚ) :
    ∀ a : ℚ, a ≤ l.foldl max a ∧ ∀ x ∈ l, x ≤ l.foldl max a := by
  induction l with
  | nil => intro a; exact ⟨le_refl a, by simp⟩
  | cons y ys ih =>
    intro a
    have h1 : (y :: ys).foldl max a = ys.foldl max (max a y) := rfl
    constructor
    · rw [h1]
      exact le_trans (le_max_left a y) (ih (max a y)).1
    · intro x hx
      rcases List.mem_cons.mp hx with rfl | hx
      · rw [h1]
        exact le_trans (le_max_right a x) (ih (max a x)).1
      · rw [h1]
        exact (ih (max a y)).2 x hx

theorem valuesMin_le_mem (l : List ℚ) (h : l ≠ []) : ∀ x ∈ l, valuesMin l ≤ x := by
  match l with
  | [] => exact absurd rfl h
  | y :: ys =>
    intro x hx
    rcases List.mem_cons.mp hx with rfl | hx
    · exact (foldl_min_bounds ys x).1
    · exact (foldl_min_bounds ys y).2 x hx

theorem mem_le_valuesMax (l : List ℚ) (h : l ≠ []) : ∀ x ∈ l, x ≤ valuesMax l := by
  match l with
  | [] => exact absurd rfl h
  | y :: ys =>
    intro x hx
    rcases List.mem_cons.mp hx with rfl | hx
    · exact (foldl_max_bounds ys x).1
    · exact (foldl_max_bounds ys y).2 x hx

theorem valuesMin_le_valuesMean (l : List ℚ) (h : l ≠ []) :
    valuesMin l ≤ valuesMean l := by
  have hlen : (0 : ℚ) < l.length := by
    have : 0 < l.length := List.length_pos.mpr h
    exact_mod_cast this
  have hsum : l.length • valuesMin l ≤ l.sum :=
    List.card_nsmul_le_sum l (valuesMin l) (valuesMin_le_mem l h)
  rw [nsmul_eq_mul] at hsum
  rw [valuesMean, le_div_iff₀ hlen, mul_comm]
  exact hsum

theorem valuesMean_le_valuesMax (l : List ℚ) (h : l ≠ []) :
    valuesMean l ≤ valuesMax l := by
  have hlen : (0 : ℚ) < l.length := by
    have : 0 < l.length := List.length_pos.mpr h
    exact_mod_cast this
  have hsum : l.sum ≤ l.length • valuesMax l :=
    List.sum_le_card_nsmul l (valuesMax l) (mem_le_valuesMax l h)
  rw [nsmul_eq_mul] at hsum
  rw [valuesMean, div_le_iff₀ hlen, mul_comm]
  exact hsum

/-- C8: on a non-empty frame, the quick stats are mean, min and max of
the value column, and they satisfy `min ≤ mean ≤ max`. -/
theorem C8_stats_bounds (df : DF) (h : df.rows ≠ []) :
    quickStats df
      = .stats (valuesMean (df.rows.map Row.value)) (valuesMin (df.rows.map Row.value))
          (valuesMax (df.rows.map Row.value)) ∧
    valuesMin (df.rows.map Row.value) ≤ valuesMean (df.rows.map Row.value) ∧
    valuesMean (df.rows.map Row.value) ≤ valuesMax (df.rows.map Row.value) := by
  have hm : df.rows.map Row.value ≠ [] := by
    simp only [ne_eq, List.map_eq_nil_iff]
    exact h
  refine ⟨?_, valuesMin_le_valuesMean _ hm, valuesMean_le_valuesMax _ hm⟩
  rw [quickStats, if_neg (by simp only [List.isEmpty_iff]; exact h)]

/-- Closed witness for `C8_stats_bounds` at the two-row frame `dfStats`
(values 1 and 3). -/
theorem C8_stats_bounds_witness :
    quickStats dfStats
      = .stats (valuesMean (dfStats.rows.map Row.value))
          (valuesMin (dfStats.rows.map Row.value))
          (valuesMax (dfStats.rows.map Row.value)) ∧
    valuesMin (dfStats.rows.map Row.value) ≤ valuesMean (dfStats.rows.map Row.value) ∧
    valuesMean (dfStats.rows.map Row.value) ≤ valuesMax (dfStats.rows.map Row.value) :=
  C8_stats_bounds dfStats (by decide)

/-- C7: every derivation over the empty row set yields its well-formed
"no data" result: the trend panel shows the info message, the quick stats
show the placeholder instead of computing mean/min/max over an empty set,
and the table and download branches render nothing — none of them
fault. -/
theorem C7_empty_derivations (df : DF) (show_table download_btn : Bool)
    (h : df.rows = []) :
    trendView df = .noData ∧ quickStats df = .placeholder ∧
    tableView show_table df = none ∧ exportView download_btn df = none := by
  have hemp : df.rows.isEmpty = true := by rw [h]; rfl
  refine ⟨?_, ?_, ?_, ?_⟩
  · rw [trendView, if_pos hemp]
  · rw [quickStats, if_pos hemp]
  · rw [tableView, hemp]
    simp
  · rw [exportView, hemp]
    simp

/-- Closed witness for `C7_empty_derivations` at the empty frame. -/
theorem C7_empty_derivations_witness :
    trendView emptyDF = .noData ∧ quickStats emptyDF = .placeholder ∧
    tableView true emptyDF = none ∧ exportView true emptyDF = none :=
  C7_empty_derivations emptyDF true true rfl

/-- C6: the CSV ingestor is total — every uploaded input either parses to
a frame (and the Upload branch adopts it) or yields the explicit `None`
parse-failure signal, in which case the branch surfaces the sidebar error
and leaves the frame empty for the rest of the pass; no unhandled fault
escapes to the host shell. -/
theorem C6_upload_total (u : UploadFile) :
    (∃ df, parse_uploaded_csv u = some df ∧ uploadBranch (some u) = (df, .ok)) ∨
    (parse_uploaded_csv u = none ∧ uploadBranch (some u) = (emptyDF, .parseFailed)) := by
  cases u with
  | malformed => exact Or.inr ⟨rfl, rfl⟩
  | table p => exact Or.inl ⟨ingestPayload p, rfl, rfl⟩

/-! CSV round-trip. -/

theorem Row.eq_of_row_fields (a b : Row) (h1 : a.timestamp = b.timestamp)
    (h2 : a.sensor_id = b.sensor_id) (h3 : a.metric_type = b.metric_type)
    (h4 : a.value = b.value) : a = b := by
  cases a; cases b; simp_all

theorem tsParse_NaT : tsParse "NaT" = none := by decide

theorem cellText_strCell_safe (s : Option String) (hs : csvSafeText s = true) :
    cellText (strCell s) = s := by
  cases s with
  | none => rfl
  | some t =>
    have hc : naTokens.contains t = false := by
      have hb : (!naTokens.contains t) = true := hs
      simpa using hb
    have ht : ¬ t = "" := by
      intro h
      rw [h] at hc
      exact absurd hc (by decide)
    show cellText (if t = "" then Cell.blank else Cell.str t) = some t
    rw [if_neg ht]
    have hm : t ∉ naTokens := by simpa using hc
    simp [cellText, hm]

theorem tsParse_tsAstypeStr (t : Option Int) : tsParse (tsAstypeStr t) = t := by
  cases t with
  | none => exact tsParse_NaT
  | some t => exact tsParse_tsRenderSecond t

/-- Re-ingesting the serialized payload of a frame yields, row for row,
the parse of each serialized field. -/
theorem ingest_download_rows (df : DF) :
    (ingestPayload (downloadPayload df)).rows
      = df.rows.map (fun r =>
          (⟨(if df.hasTimestamp then tsParse (tsAstypeStr r.timestamp) else none),
            (if df.hasSensor then cellText (strCell r.sensor_id) else none),
            (if df.hasMetric then cellText (strCell r.metric_type) else none),
            r.value⟩ : Row)) := by
  show ((df.rows.map _).map _) = _
  rw [List.map_map]
  refine List.map_congr_left ?_
  intro r hr
  refine Row.eq_of_row_fields _ _ ?_ rfl rfl rfl
  show (if df.hasTimestamp then
          (match (if df.hasTimestamp then Cell.str (tsAstypeStr r.timestamp)
                  else Cell.blank : Cell) with
           | Cell.str s => tsParse s
           | _ => none)
        else none)
      = (if df.hasTimestamp then tsParse (tsAstypeStr r.timestamp) else none)
  cases hts : df.hasTimestamp with
  | true => rfl
  | false => rfl

/-- C5, as the claim states it, is refuted by a well-formed frame whose
single row carries the empty string as its sensor id: the CSV byte
payload writes that field as the bare empty field, which re-ingests as a
missing entry, so the round trip does not preserve the `sensor_id`
field. -/
theorem C5_counterexample :
    DF.WF dfEmptyStr ∧
    dfEmptyStr.rows.map Row.sensor_id = [some ""] ∧
    (parse_uploaded_csv (.table (downloadPayload dfEmptyStr))).map
        (fun d => d.rows.map Row.sensor_id) = some [none] ∧
    parse_uploaded_csv (.table (downloadPayload dfEmptyStr)) ≠ some dfEmptyStr := by
  decide

/-- C5 (amended): re-ingesting the CSV payload of a well-formed frame
always preserves the row count, every timestamp (at the one-second
precision of the string format) and every value; the `sensor_id` and
`metric_type` fields are recovered exactly provided none of them holds
the empty string or one of `read_csv`'s default NA tokens — such texts
are written as, or read back as, a missing field and re-ingest as
missing entries. -/
theorem C5_csv_roundtrip_amended (df : DF) (h : df.WF) :
    ((ingestPayload (downloadPayload df)).rows.length = df.rows.length ∧
      (ingestPayload (downloadPayload df)).rows.map Row.timestamp
        = df.rows.map Row.timestamp ∧
      (ingestPayload (downloadPayload df)).rows.map Row.value
        = df.rows.map Row.value) ∧
    ((∀ r ∈ df.rows, csvSafeText r.sensor_id = true ∧ csvSafeText r.metric_type = true) →
      parse_uploaded_csv (.table (downloadPayload df)) = some df) := by
  obtain ⟨h1, h2, h3⟩ := h
  refine ⟨⟨?_, ?_, ?_⟩, ?_⟩
  · rw [ingest_download_rows, List.length_map]
  · rw [ingest_download_rows, List.map_map]
    refine List.map_congr_left ?_
    intro r hr
    show (if df.hasTimestamp then tsParse (tsAstypeStr r.timestamp) else none)
        = r.timestamp
    cases hts : df.hasTimestamp with
    | true =>
      simp only [if_true]
      exact tsParse_tsAstypeStr r.timestamp
    | false =>
      simp only [Bool.false_eq_true, if_false]
      exact (h1 hts r hr).symm
  · rw [ingest_download_rows, List.map_map]
    refine List.map_congr_left ?_
    intro r hr
    rfl
  · intro hsafe
    show some (ingestPayload (downloadPayload df)) = some df
    congr 1
    refine DF.eq_of_fields _ _ rfl rfl rfl ?_
    rw [ingest_download_rows]
    have hpt : ∀ r ∈ df.rows,
        (fun r : Row =>
          (⟨(if df.hasTimestamp then tsParse (tsAstypeStr r.timestamp) else none),
            (if df.hasSensor then cellText (strCell r.sensor_id) else none),
            (if df.hasMetric then cellText (strCell r.metric_type) else none),
            r.value⟩ : Row)) r = id r := by
      intro r hr
      refine Row.eq_of_row_fields _ _ ?_ ?_ ?_ rfl
      · show (if df.hasTimestamp then tsParse (tsAstypeStr r.timestamp) else none)
            = r.timestamp
        cases hts : df.hasTimestamp with
        | true =>
          simp only [if_true]
          exact tsParse_tsAstypeStr r.timestamp
        | false =>
          simp only [Bool.false_eq_true, if_false]
          exact (h1 hts r hr).symm
      · show (if df.hasSensor then cellText (strCell r.sensor_id) else none)
            = r.sensor_id
        cases hsen : df.hasSensor with
        | true =>
          simp only [if_true]
          exact cellText_strCell_safe r.sensor_id (hsafe r hr).1
        | false =>
          simp only [Bool.false_eq_true, if_false]
          exact (h2 hsen r hr).symm
      · show (if df.hasMetric then cellText (strCell r.metric_type) else none)
            = r.metric_type
        cases hmet : df.hasMetric with
        | true =>
          simp only [if_true]
          exact cellText_strCell_safe r.metric_type (hsafe r hr).2
        | false =>
          simp only [Bool.false_eq_true, if_false]
          exact (h3 hmet r hr).symm
    rw [List.map_congr_left hpt, List.map_id]

/-- Closed witness for `C5_csv_roundtrip_amended` at the concrete
three-row frame `dfRoundTrip`, whose text fields are all CSV-safe. -/
theorem C5_csv_roundtrip_amended_witness :
    DF.WF dfRoundTrip ∧
    (∀ r ∈ dfRoundTrip.rows,
      csvSafeText r.sensor_id = true ∧ csvSafeText r.metric_type = true) ∧
    (ingestPayload (downloadPayload dfRoundTrip)).rows.length
      = dfRoundTrip.rows.length ∧
    parse_uploaded_csv (.table (downloadPayload dfRoundTrip)) = some dfRoundTrip :=
  ⟨by decide, by decide,
   (C5_csv_roundtrip_amended dfRoundTrip (by decide)).1.1,
   (C5_csv_roundtrip_amended dfRoundTrip (by decide)).2 (by decide)⟩

/-! Frame property of a live pass. -/

/-- C10: the session buffer after a full live pass does not depend on the
filter selections or the table/download switches — filtering and every
view derivation work on a copy — and a pass with auto-refresh disabled on
an initialised session leaves the buffer exactly as it was. -/
theorem C10_frame (s : SessionState) (b : DF) (auto_refresh : Bool) (now : Int)
    (rngInit rngTick : Rng) (mf sf mf2 sf2 : List String) (t1 d1 t2 d2 : Bool) :
    (livePass s auto_refresh now rngInit rngTick mf sf t1 d1).1
      = (livePass s auto_refresh now rngInit rngTick mf2 sf2 t2 d2).1 ∧
    (s.live_buffer = some b →
      (livePass s false now rngInit rngTick mf sf t1 d1).1 = ⟨some b⟩) := by
  constructor
  · rfl
  · intro hb
    simp [livePass, hb]

/-- Closed witness for `C10_frame`: a disabled-refresh pass on a session
holding `dfStats` returns the session unchanged. -/
theorem C10_frame_witness :
    (livePass ⟨some dfStats⟩ false 0 rngZero rngZero ["temperature"] [] true true).1
      = ⟨some dfStats⟩ :=
  (C10_frame ⟨some dfStats⟩ dfStats false 0 rngZero rngZero ["temperature"] []
    ["humidity"] ["sensor_1"] true true false false).2 rfl

end Dashboard
